import Mathlib

/-!
# Verification of the ORB smart mining bot against its specification

Shallow embedding of the decision logic of `src/commands/smartBot.ts`
(together with the small helpers it uses from `src/utils/jupiter.ts`,
`src/utils/program.ts` and `dashboard/lib/maintenance.ts`).

JavaScript `number` arithmetic is modelled with exact rationals (`ℚ`);
all the constants involved in the claims (0.9, 0.95, 1/625, thresholds
50 / -40 / 100) are small and the claims are inequalities with
comfortable margins, so the exact-rational model is faithful.
Asynchronous reads (price oracle, chain fetches) become explicit
function arguments; the sequential main loop becomes a fold over the
list of observed round identifiers.
-/

namespace OrbMiner

/-- Relevant fields of the bot configuration (`src/utils/config.ts`),
as consumed by `isProfitableToMine`. -/
structure BotConfig where
  estimatedCompetitionMultiplier : ℚ
  minExpectedValue : ℚ
  deriving Repr, DecidableEq

/-- `calculateExpectedOrbRewards` from `src/commands/smartBot.ts`
(lines 133-158): expected ORB per round, after the 10% refining fee.
`ourShareOfTotal = ourSquares / (ourSquares * estMult)`,
base reward `ourShare * 4`, motherload term `(1/625) * ourShare * motherloadOrb`,
total scaled by `0.9`. -/
def calculateExpectedOrbRewards (motherloadOrb ourSquares estimatedCompetitionMultiplier : ℚ) : ℚ :=
  let ourShareOfTotal := ourSquares / (ourSquares * estimatedCompetitionMultiplier)
  let baseRewardExpected := ourShareOfTotal * 4
  let motherloadChance : ℚ := 1 / 625
  let motherloadExpected := motherloadChance * ourShareOfTotal * motherloadOrb
  let totalExpected := baseRewardExpected + motherloadExpected
  totalExpected * (9 / 10)

/-- `calculateExpectedSolReturns` from `src/commands/smartBot.ts`
(lines 170-185): the second argument (`_estimatedTotalDeployment`) is
declared "for future use" and never read; the function returns
`ourDeploymentSol * 0.95`. -/
def calculateExpectedSolReturns (ourDeploymentSol _estimatedTotalDeployment : ℚ) : ℚ :=
  ourDeploymentSol * (95 / 100)

/-- Result record of `isProfitableToMine` (the breakdown message is
presentation only and omitted). -/
structure ProfitabilityResult where
  profitable : Bool
  expectedValue : ℚ
  productionCost : ℚ
  expectedReturns : ℚ
  orbPrice : ℚ
  deriving Repr, DecidableEq

/-- `isProfitableToMine` from `src/commands/smartBot.ts` (lines 196-266),
with the awaited price fetch turned into the explicit argument
`orbPrice`.  An `orbPrice` of `0` is the failure sentinel of
`getOrbPrice` and takes the early not-profitable return.  The JS
fallbacks `config.estimatedCompetitionMultiplier || 10` and
`config.minExpectedValue || 0` are embedded with `0` standing for an
unset/falsy config value. -/
def isProfitableToMine (cfg : BotConfig) (costPerRound motherloadOrb orbPrice : ℚ) :
    ProfitabilityResult :=
  if orbPrice = 0 then
    { profitable := false
      expectedValue := 0
      productionCost := costPerRound
      expectedReturns := 0
      orbPrice := 0 }
  else
    let competitionMultiplier :=
      if cfg.estimatedCompetitionMultiplier = 0 then 10 else cfg.estimatedCompetitionMultiplier
    let expectedOrbRewards := calculateExpectedOrbRewards motherloadOrb 25 competitionMultiplier
    let expectedSolBack :=
      calculateExpectedSolReturns costPerRound (costPerRound * competitionMultiplier)
    let orbRewardValueInSol := expectedOrbRewards * orbPrice
    let totalExpectedReturns := orbRewardValueInSol + expectedSolBack
    let expectedValue := totalExpectedReturns - costPerRound
    let minEV := if cfg.minExpectedValue = 0 then 0 else cfg.minExpectedValue
    { profitable := decide (minEV ≤ expectedValue)
      expectedValue := expectedValue
      productionCost := costPerRound
      expectedReturns := totalExpectedReturns
      orbPrice := orbPrice }

/-- `getOrbPrice` from `src/utils/jupiter.ts` (lines 13-34), with the
HTTP fetch abstracted to its outcome: `none` models a failed request or
missing price entry (the `catch` branch returns the `0` sentinel), and
`some p` a successful quote (`priceData.price || 0` maps a falsy price
to `0`, which on `ℚ` is the identity). -/
def getOrbPrice (fetched : Option ℚ) : ℚ :=
  match fetched with
  | none => 0
  | some p => p

/-- `shouldRestartAutomation` from `src/commands/smartBot.ts`
(lines 462-495): no restart when no setup motherload is tracked
(`setupMotherload === 0`); otherwise restart iff the percent change
from the setup motherload is `≥ 50` with absolute change `≥ 100`, or
`≤ -40` with absolute change `≥ 100`. -/
def shouldRestartAutomation (setupMotherload currentMotherload : ℚ) : Bool :=
  if setupMotherload = 0 then
    false
  else
    let percentChange := (currentMotherload - setupMotherload) / setupMotherload * 100
    let absoluteChange := |currentMotherload - setupMotherload|
    let shouldIncrease := decide (50 ≤ percentChange) && decide ((100 : ℚ) ≤ absoluteChange)
    let shouldDecrease := decide (percentChange ≤ -40) && decide ((100 : ℚ) ≤ absoluteChange)
    shouldIncrease || shouldDecrease

end OrbMiner

namespace OrbMiner

/-- **C3.** `rescale` (= `shouldRestartAutomation`) triggers exactly when
the change from the setup-time reward pool exceeds the hysteresis band
(percent ≥ +50 and absolute ≥ 100, or percent ≤ −40 and absolute ≥ 100),
and is a no-op otherwise; for `setupPoolSize = 300`, a current pool of
`450` triggers and `440` does not.  The band is restated in product
form (`cur ≥ 1.5·setup ∧ cur ≥ setup + 100`, resp.
`cur ≤ 0.6·setup ∧ cur ≤ setup − 100`), equivalent to the source's
percent test for positive `setup`. -/
theorem rescale_hysteresis_band :
    shouldRestartAutomation 300 450 = true ∧
    shouldRestartAutomation 300 440 = false ∧
    ∀ setup cur : ℚ, 0 < setup →
      (shouldRestartAutomation setup cur = true ↔
        ((3 / 2) * setup ≤ cur ∧ setup + 100 ≤ cur) ∨
        (cur ≤ (3 / 5) * setup ∧ cur ≤ setup - 100)) := by
  refine ⟨by norm_num [shouldRestartAutomation], by norm_num [shouldRestartAutomation], ?_⟩
  intro setup cur hsetup
  have hne : setup ≠ 0 := ne_of_gt hsetup
  unfold shouldRestartAutomation
  rw [if_neg hne]
  simp only [Bool.or_eq_true, Bool.and_eq_true, decide_eq_true_eq]
  constructor
  · rintro (⟨hpct, habs⟩ | ⟨hpct, habs⟩)
    · left
      have h2 : (1 / 2 : ℚ) ≤ (cur - setup) / setup := by linarith
      rw [le_div_iff₀ hsetup] at h2
      have hcur : (3 / 2) * setup ≤ cur := by linarith
      refine ⟨hcur, ?_⟩
      rw [abs_of_nonneg (by nlinarith : (0 : ℚ) ≤ cur - setup)] at habs
      linarith
    · right
      have h2 : (cur - setup) / setup ≤ -(2 / 5) := by linarith
      rw [div_le_iff₀ hsetup] at h2
      have hcur : cur ≤ (3 / 5) * setup := by linarith
      refine ⟨hcur, ?_⟩
      rw [abs_of_nonpos (by nlinarith : cur - setup ≤ 0)] at habs
      linarith
  · rintro (⟨h1, h2⟩ | ⟨h1, h2⟩)
    · left
      constructor
      · have h3 : (1 / 2 : ℚ) ≤ (cur - setup) / setup := by
          rw [le_div_iff₀ hsetup]; linarith
        linarith
      · rw [abs_of_nonneg (by linarith : (0 : ℚ) ≤ cur - setup)]; linarith
    · right
      constructor
      · have h3 : (cur - setup) / setup ≤ -(2 / 5) := by
          rw [div_le_iff₀ hsetup]; linarith
        linarith
      · rw [abs_of_nonpos (by linarith : cur - setup ≤ 0)]; linarith

/-- Witness for `rescale_hysteresis_band`: at `setup = 100`,
`cur = 250` the band condition holds, so the rescale triggers. -/
theorem rescale_hysteresis_band_witness :
    shouldRestartAutomation 100 250 = true :=
  ((rescale_hysteresis_band.2.2 100 250 (by norm_num)).mpr
    (Or.inl ⟨by norm_num, by norm_num⟩))

/-- **C4.** Whenever the market-price input is the zero/error sentinel of
`getOrbPrice` (a failed fetch, a missing price entry, or a quoted price
of `0`), the verdict of `isProfitableToMine` is `false` — never an
unknown-so-proceed outcome — for every reward-pool size and cost. -/
theorem price_sentinel_never_profitable :
    ∀ (cfg : BotConfig) (costPerRound motherloadOrb : ℚ) (fetched : Option ℚ),
      fetched = none ∨ fetched = some 0 →
      (isProfitableToMine cfg costPerRound motherloadOrb (getOrbPrice fetched)).profitable
        = false := by
  rintro cfg costPerRound motherloadOrb fetched (rfl | rfl) <;>
    simp [getOrbPrice, isProfitableToMine]

/-- Witness for `price_sentinel_never_profitable`: concrete failed fetch
with a large reward pool still yields a not-profitable verdict. -/
theorem price_sentinel_never_profitable_witness :
    (isProfitableToMine ⟨10, 0⟩ 1 500 (getOrbPrice none)).profitable = false :=
  price_sentinel_never_profitable ⟨10, 0⟩ 1 500 none (Or.inl rfl)

/-- **C5, counterexample.** The claim "for `rewardPoolSize = 0` and any
`costPerRound > 0`, `expectedValue < costPerRound` and never profitable"
is false on the code: the fixed base emission (4 ORB per round, scaled
by the 10% refining fee) is paid out regardless of the reward pool, so
with `costPerRound = 1/1000`, market price `1` and the default
competition multiplier `10`, the expected value is `7199/20000`
(≥ `costPerRound`) and the verdict is profitable. -/
theorem reward_pool_zero_counterexample :
    (isProfitableToMine ⟨10, 0⟩ (1 / 1000) 0 1).profitable = true ∧
    ¬ ((isProfitableToMine ⟨10, 0⟩ (1 / 1000) 0 1).expectedValue < 1 / 1000) := by
  norm_num [isProfitableToMine, calculateExpectedOrbRewards, calculateExpectedSolReturns]

/-- **C5, amended.** For `rewardPoolSize = 0` the motherload term of the
expected reward vanishes, but the fixed base emission remains: for a
non-sentinel market price `p` and competition multiplier `m ≠ 0`,
`expectedValue = (18/5)·(p/m) − costPerRound/20`, which can reach or
exceed `costPerRound` and make the verdict profitable.  The claimed
guarantee (`expectedValue < costPerRound`, never profitable) does hold
whenever the market price is the `0` sentinel. -/
theorem reward_pool_zero_amended :
    ∀ (m minEV c p : ℚ), 0 < c →
      ((isProfitableToMine ⟨m, minEV⟩ c 0 0).profitable = false ∧
        (isProfitableToMine ⟨m, minEV⟩ c 0 0).expectedValue < c) ∧
      (m ≠ 0 → p ≠ 0 →
        (isProfitableToMine ⟨m, minEV⟩ c 0 p).expectedValue
          = (18 / 5) * (p / m) - c / 20) := by
  intro m minEV c p hc
  constructor
  · constructor
    · simp [isProfitableToMine]
    · simp only [isProfitableToMine, if_pos rfl]
      exact hc
  · intro hm hp
    simp only [isProfitableToMine, calculateExpectedOrbRewards, calculateExpectedSolReturns,
      if_neg hp]
    by_cases hm0 : m = 0
    · exact absurd hm0 hm
    · rw [if_neg hm0]
      field_simp
      ring

/-- Witness for `reward_pool_zero_amended`: at `m = 10`, `c = 1`,
`p = 1/100` the expected value equals `(18/5)·(1/1000) − 1/20`. -/
theorem reward_pool_zero_amended_witness :
    (isProfitableToMine ⟨10, 0⟩ 1 0 (1 / 100)).expectedValue
      = (18 / 5) * ((1 / 100) / 10) - 1 / 20 :=
  (reward_pool_zero_amended 10 0 1 (1 / 100) (by norm_num)).2
    (by norm_num) (by norm_num)

/-- The profitability evaluation exactly as it is invoked from
`autoMineRound` (lines 819-833): by the time it runs, the bot has
fetched the board and could fetch the current round account (whose
`totalDeployed` field is the real on-chain competing-deployment figure,
read elsewhere by `tests/test-live-profitability.ts` and the query
command), but `isProfitableToMine` is called with only the cost and the
motherload — the round's `totalDeployed` is never passed, which the
unused final parameter makes explicit. -/
def profitabilityForRound (cfg : BotConfig) (costPerRound motherloadOrb orbPrice : ℚ)
    (_roundTotalDeployed : ℚ) : ProfitabilityResult :=
  isProfitableToMine cfg costPerRound motherloadOrb orbPrice

/-- The competition-source selection rule the repository documents:
from `tests/test-live-profitability.ts` (lines 44-65, "this simulates
what the bot now does automatically"): if round data is available and
`totalDeployed ≥ 0.01` SOL, use the real figure
(`share = ours / (total + ours)`); otherwise fall back to the
configured estimate (`share = 1 / (multiplier + 1)`). -/
def documentedCompetitionShare (roundTotalDeployed : Option ℚ) (cfgMultiplier yourDeployment : ℚ) : ℚ :=
  match roundTotalDeployed with
  | some totalDeployedSol =>
    if totalDeployedSol < 1 / 100 then
      1 / ((if cfgMultiplier = 0 then 10 else cfgMultiplier) + 1)
    else
      yourDeployment / (totalDeployedSol + yourDeployment)
  | none => 1 / ((if cfgMultiplier = 0 then 10 else cfgMultiplier) + 1)

/-- **C8.** The claim (prefer the real on-chain competing-deployment
figure when non-negligible) matches the repository's own tests and
docs, but not the shipped evaluator: `isProfitableToMine` is invariant
under the round's `totalDeployed` (first conjunct: a non-negligible
figure of 10 SOL changes nothing vs 0), the share it feeds into the
reward formula is always the configured `25/(25·multiplier)`, and at
the failing input the documented selection rule yields a different
share (`1828/101828` instead of `1/10`). -/
theorem competition_source_ignored_by_code :
    (∀ (cfg : BotConfig) (c ml p t₁ t₂ : ℚ),
        profitabilityForRound cfg c ml p t₁ = profitabilityForRound cfg c ml p t₂) ∧
    profitabilityForRound ⟨10, 0⟩ (1828 / 10000) 100 (1 / 10) 10
      = profitabilityForRound ⟨10, 0⟩ (1828 / 10000) 100 (1 / 10) 0 ∧
    (∀ c t₁ t₂ : ℚ, calculateExpectedSolReturns c t₁ = calculateExpectedSolReturns c t₂) ∧
    documentedCompetitionShare (some 10) 10 (1828 / 10000) ≠ (25 : ℚ) / (25 * 10) := by
  refine ⟨fun _ _ _ _ _ _ => rfl, rfl, fun _ _ _ => rfl, ?_⟩
  norm_num [documentedCompetitionShare]

/-- Events that can touch the module-level `setupMotherload` variable
(`smartBot.ts` line 46, initialised to `0`).  The only assignment in
the whole file is `setupMotherload = motherloadOrb` at line 351, inside
`autoSetupAutomation` after a successful escrow creation; every other
step of a run (`tick`) leaves it unchanged. -/
inductive BotEvent where
  | setupCompleted (motherloadAtSetup : ℚ)
  | tick
  deriving Repr, DecidableEq

/-- The value of `setupMotherload` after a sequence of events, starting
from `v`. -/
def setupMotherloadAfter (v : ℚ) : List BotEvent → ℚ
  | [] => v
  | BotEvent.setupCompleted m :: rest => setupMotherloadAfter m rest
  | BotEvent.tick :: rest => setupMotherloadAfter v rest

/-- **C10.** If the escrow already exists at startup, `autoSetupAutomation`
never runs, so no `setupCompleted` event ever occurs: `setupMotherload`
keeps its initial value `0` for the whole run, and since
`shouldRestartAutomation` returns `false` whenever the tracked setup
motherload is `0`, no close+recreate rescale is ever initiated, however
much the reward pool has moved. -/
theorem no_setup_means_no_rescale :
    ∀ (events : List BotEvent), (∀ v : ℚ, BotEvent.setupCompleted v ∉ events) →
      setupMotherloadAfter 0 events = 0 ∧
      ∀ currentMotherload : ℚ,
        shouldRestartAutomation (setupMotherloadAfter 0 events) currentMotherload = false := by
  intro events hnosetup
  have hzero : setupMotherloadAfter 0 events = 0 := by
    induction events with
    | nil => rfl
    | cons e rest ih =>
      cases e with
      | setupCompleted v => exact absurd (List.mem_cons_self _ _) (hnosetup v)
      | tick =>
        exact ih fun v hv => hnosetup v (List.mem_cons_of_mem _ hv)
  refine ⟨hzero, fun currentMotherload => ?_⟩
  rw [hzero]
  simp [shouldRestartAutomation]

/-- Witness for `no_setup_means_no_rescale`: a run of two plain ticks
never rescales, even against a huge current reward pool. -/
theorem no_setup_means_no_rescale_witness :
    shouldRestartAutomation (setupMotherloadAfter 0 [BotEvent.tick, BotEvent.tick]) 100000
      = false :=
  (no_setup_means_no_rescale [BotEvent.tick, BotEvent.tick]
    (fun v hv => by simp at hv)).2 100000

/-- The round-gate of the main loop (`smartBotCommand`, lines
1016-1104): each polling tick reads the board's `roundId` and invokes
`autoMineRound` only when it differs from `lastRoundId`, updating
`lastRoundId` first.  `mineInvocations last observations` is the list
of round identifiers for which `autoMineRound` is invoked when the
successive ticks observe `observations`, starting from `lastRoundId =
last` (`none` models the initial empty string, which matches no round).
All deployment writes happen inside `autoMineRound`, so at most one per
listed invocation succeeds. -/
def mineInvocations : Option ℕ → List ℕ → List ℕ
  | _, [] => []
  | last, r :: rest =>
    if last = some r then mineInvocations last rest
    else r :: mineInvocations (some r) rest

/-- Every invoked round was observed. -/
theorem mem_mineInvocations {r : ℕ} :
    ∀ (obs : List ℕ) (last : Option ℕ), r ∈ mineInvocations last obs → r ∈ obs := by
  intro obs
  induction obs with
  | nil => intro last h; simp [mineInvocations] at h
  | cons a rest ih =>
    intro last h
    unfold mineInvocations at h
    by_cases hl : last = some a
    · rw [if_pos hl] at h
      exact List.mem_cons_of_mem _ (ih last h)
    · rw [if_neg hl] at h
      rcases List.mem_cons.mp h with h | h
      · exact h ▸ List.mem_cons_self _ _
      · exact List.mem_cons_of_mem _ (ih (some a) h)

/-- Once `lastRoundId = some x`, a non-decreasing tail of observations
all `≥ x` never triggers another invocation for `x`. -/
theorem not_mem_mineInvocations_self :
    ∀ (obs : List ℕ) (x : ℕ), List.Sorted (· ≤ ·) obs → (∀ y ∈ obs, x ≤ y) →
      x ∉ mineInvocations (some x) obs := by
  intro obs
  induction obs with
  | nil => intro x _ _ h; simp [mineInvocations] at h
  | cons b rest ih =>
    intro x hsorted hge h
    rw [List.sorted_cons] at hsorted
    unfold mineInvocations at h
    by_cases hb : b = x
    · rw [if_pos (by rw [hb])] at h
      exact ih x hsorted.2 (fun y hy => hge y (List.mem_cons_of_mem _ hy)) h
    · rw [if_neg (fun hsome => hb (Option.some.inj hsome).symm)] at h
      have hxb : x < b :=
        lt_of_le_of_ne (hge b (List.mem_cons_self _ _)) (fun he => hb he.symm)
      rcases List.mem_cons.mp h with h | h
      · exact absurd h.symm hb
      · have hxrest : x ∈ rest := mem_mineInvocations rest (some b) h
        exact absurd (hsorted.1 x hxrest) (not_le_of_lt (lt_of_lt_of_le hxb le_rfl))

/-- **C1.** Within one run of the orchestrator loop, for every observed
round identifier `r` the loop invokes `autoMineRound` (and hence can
submit a deployment write) at most once for `r`, provided the observed
round sequence is non-decreasing (the chain's `roundId` is
monotonically increasing).  In particular consecutive duplicate
polling ticks trigger no second deployment submission. -/
theorem deploy_at_most_once_per_round :
    ∀ (observations : List ℕ), List.Sorted (· ≤ ·) observations →
      ∀ (last : Option ℕ) (r : ℕ), (mineInvocations last observations).count r ≤ 1 := by
  intro observations
  induction observations with
  | nil => intro _ _ r; simp [mineInvocations]
  | cons a rest ih =>
    intro hsorted last r
    rw [List.sorted_cons] at hsorted
    unfold mineInvocations
    by_cases hl : last = some a
    · rw [if_pos hl]
      exact ih hsorted.2 last r
    · rw [if_neg hl]
      by_cases hr : r = a
      · subst hr
        rw [List.count_cons_self]
        have hnot : r ∉ mineInvocations (some r) rest :=
          not_mem_mineInvocations_self rest r hsorted.2 hsorted.1
        rw [List.count_eq_zero_of_not_mem hnot]
      · rw [List.count_cons_of_ne hr]
        exact ih hsorted.2 (some a) r

/-- Witness for `deploy_at_most_once_per_round`: duplicate ticks
observing round 5 twice, then round 6, invoke mining at most once for
round 5. -/
theorem deploy_at_most_once_per_round_witness :
    (mineInvocations none [5, 5, 6]).count 5 ≤ 1 :=
  deploy_at_most_once_per_round [5, 5, 6] (by decide) none 5

/-- `isMaintenanceMode` from `dashboard/lib/maintenance.ts` (lines
10-16): true exactly when the shared `.maintenance` file is present
(the `catch` branch only covers a failing `existsSync`, which we model
as absence). -/
def isMaintenanceMode (maintenanceFilePresent : Bool) : Bool :=
  maintenanceFilePresent

/-- One polling tick of the main loop (`smartBotCommand`, lines
1004-1111), with the shared maintenance flag made explicit as part of
the observable environment.  The loop body reads the board and the
round gate but contains no read of the maintenance file whatsoever, so
the flag argument is unused — which is precisely the defect this model
exhibits.  The second component lists the rounds for which a mining
deployment attempt is issued by this tick. -/
def smartBotTick (_maintenanceFlagPresent : Bool) (lastRoundId : Option ℕ)
    (observedRound : ℕ) : Option ℕ × List ℕ :=
  if lastRoundId = some observedRound then (lastRoundId, [])
  else (some observedRound, [observedRound])

/-- **C9 (divergence witness).** The orchestrator's tick is entirely
independent of the maintenance flag — it never detects it — and a tick
taken while the flag is present (`isMaintenanceMode true`) still issues
a deployment attempt for a newly observed round.  This contradicts the
claim (and the repository's own reset endpoint, which documents that
"the bot checks the file every ~2 seconds when it's in the main loop"
and merely sleeps 15 s hoping the bot paused). -/
theorem maintenance_flag_never_consulted :
    (∀ (flag : Bool) (last : Option ℕ) (r : ℕ),
        smartBotTick flag last r = smartBotTick false last r) ∧
    isMaintenanceMode true = true ∧
    (smartBotTick (isMaintenanceMode true) (some 5) 6).2 = [6] := by
  refine ⟨fun _ _ _ => rfl, rfl, by decide⟩

/-- The checkpoint catch-up `while` loop of `autoMineRound` (lines
757-797), on its success path (every `buildCheckpointInstruction` and
every send succeeds): each iteration sends a batch of
`min remaining maxCheckpointsPerTx` checkpoints with
`maxCheckpointsPerTx = 10`, and `remaining` drops by the batch size.
The first argument is fuel; since every iteration removes at least one
checkpoint, `remaining` itself is enough fuel. -/
def checkpointBatchSizes : ℕ → ℕ → List ℕ
  | 0, _ => []
  | _ + 1, 0 => []
  | fuel + 1, remaining + 1 =>
    let batchSize := min (remaining + 1) 10
    batchSize :: checkpointBatchSizes fuel (remaining + 1 - batchSize)

/-- The batch sizes issued to catch up `roundsBehind` missed rounds. -/
def checkpointBatches (roundsBehind : ℕ) : List ℕ :=
  checkpointBatchSizes roundsBehind roundsBehind

/-- Chain-mutating submissions of `autoMineRound`. -/
inductive MineAction where
  | checkpointTx (count : ℕ)
  | deployTx
  deriving Repr, DecidableEq

/-- The submissions of `autoMineRound` on its success path: first the
checkpoint catch-up batches for `roundId − checkpointId` missed rounds
(only when `checkpointId < roundId`, line 752), then — after the
motherload, profitability and round-window gates pass — the single
deployment write (line 855). -/
def autoMineActions (checkpointId roundId : ℕ) : List MineAction :=
  (if checkpointId < roundId then
      (checkpointBatches (roundId - checkpointId)).map MineAction.checkpointTx
    else [])
    ++ [MineAction.deployTx]

/-- With enough fuel, the batch sizes sum to the whole backlog. -/
theorem checkpointBatchSizes_sum :
    ∀ (fuel n : ℕ), n ≤ fuel → (checkpointBatchSizes fuel n).sum = n := by
  intro fuel
  induction fuel with
  | zero =>
    intro n hn
    interval_cases n
    rfl
  | succ f ih =>
    intro n hn
    match n with
    | 0 => rfl
    | m + 1 =>
      unfold checkpointBatchSizes
      simp only [List.sum_cons]
      rw [ih (m + 1 - min (m + 1) 10) (by omega)]
      omega

/-- Every issued batch is non-empty and within the 10-checkpoint
execution-unit cap. -/
theorem checkpointBatchSizes_bounds :
    ∀ (fuel n b : ℕ), b ∈ checkpointBatchSizes fuel n → 0 < b ∧ b ≤ 10 := by
  intro fuel
  induction fuel with
  | zero =>
    intro n b hb
    simp [checkpointBatchSizes] at hb
  | succ f ih =>
    intro n b hb
    match n with
    | 0 => simp [checkpointBatchSizes] at hb
    | m + 1 =>
      unfold checkpointBatchSizes at hb
      rcases List.mem_cons.mp hb with hb | hb
      · subst hb
        constructor <;> omega
      · exact ih _ b hb

/-- **C2.** Checkpoint catch-up issues writes in batches capped at 10,
repeating until the backlog is exhausted, and every batch precedes the
deployment submission.  For `checkpointId = 10`, `roundId = 25` exactly
two batches are issued — 10 checkpoints then 5 — covering the 15 rounds
11–25 inclusive; in general, for `checkpointId ≤ roundId`, the batch
sizes are positive, at most 10, sum to `roundId − checkpointId`, and
the deployment write is the last submission. -/
theorem checkpoint_catch_up_batches :
    checkpointBatches (25 - 10) = [10, 5] ∧
    autoMineActions 10 25
      = [MineAction.checkpointTx 10, MineAction.checkpointTx 5, MineAction.deployTx] ∧
    (checkpointBatches (25 - 10)).sum = (Finset.Icc 11 25).card ∧
    ∀ checkpointId roundId : ℕ, checkpointId ≤ roundId →
      (checkpointBatches (roundId - checkpointId)).sum = roundId - checkpointId ∧
      (∀ b ∈ checkpointBatches (roundId - checkpointId), 0 < b ∧ b ≤ 10) ∧
      (autoMineActions checkpointId roundId).getLast? = some MineAction.deployTx := by
  refine ⟨by decide, by decide, by decide, ?_⟩
  intro checkpointId roundId _
  refine ⟨checkpointBatchSizes_sum _ _ le_rfl,
    fun b hb => checkpointBatchSizes_bounds _ _ b hb, ?_⟩
  unfold autoMineActions
  rw [List.getLast?_append]
  rfl

/-- Witness for `checkpoint_catch_up_batches`: for `checkpointId = 3`,
`roundId = 7` the batches cover exactly the 4 missed rounds. -/
theorem checkpoint_catch_up_batches_witness :
    (checkpointBatches (7 - 3)).sum = 7 - 3 :=
  (checkpoint_catch_up_batches.2.2.2 3 7 (by decide)).1

/-- Substring containment on character lists (JS
`String.prototype.includes`). -/
def charListContains (pattern : List Char) : List Char → Bool
  | [] => pattern.isEmpty
  | c :: rest => pattern.isPrefixOf (c :: rest) || charListContains pattern rest

/-- `errorMsg.includes(pattern)` as used by the `catch` block of
`autoMineRound` (`errorMsg = String(error)`). -/
def stringIncludes (s pattern : String) : Bool :=
  charListContains pattern.toList s.toList

/-- The three-way classification the `catch` block of `autoMineRound`
performs (lines 866, 918). -/
inductive MineErrorClass where
  | checkpointRequired
  | alreadyDeployed
  | other
  deriving Repr, DecidableEq

/-- Error classification from `autoMineRound` (lines 862-925): first
`includes('not checkpointed') || includes('checkpoint')`, then
`includes('already') || includes('duplicate')`, else unclassified. -/
def classifyMineError (msg : String) : MineErrorClass :=
  if stringIncludes msg "not checkpointed" || stringIncludes msg "checkpoint" then
    MineErrorClass.checkpointRequired
  else if stringIncludes msg "already" || stringIncludes msg "duplicate" then
    MineErrorClass.alreadyDeployed
  else
    MineErrorClass.other

/-- Outcome of the `catch` block of `autoMineRound`: the chain
submissions it makes, the boolean the function returns (`true` is the
value returned after a successful deployment), and whether an
error-level log entry is written. -/
structure CatchOutcome where
  actions : List MineAction
  result : Bool
  loggedError : Bool
  deriving Repr, DecidableEq

/-- The `catch` block of `autoMineRound` (lines 862-925), with its
external effects abstracted to their outcomes: `builtCheckpoints` is
how many checkpoint instructions `buildCheckpointInstruction` yields
before throwing (the loop caps the batch at 10),
`checkpointTxSucceeds` whether the single checkpoint transaction
confirms, and `retryDeploySucceeds` whether the retried deployment
confirms.  On the checkpoint-required path the code checkpoints once
and retries the deployment exactly once (inside `if (!config.dryRun)`);
on the already-deployed path it logs at debug level and returns
`false`; on any other error it logs the error and returns `false`. -/
def autoMineCatch (dryRun : Bool) (msg : String) (builtCheckpoints : ℕ)
    (checkpointTxSucceeds retryDeploySucceeds : Bool) : CatchOutcome :=
  match classifyMineError msg with
  | MineErrorClass.checkpointRequired =>
    let n := min builtCheckpoints 10
    if n = 0 then
      { actions := [], result := false, loggedError := false }
    else if checkpointTxSucceeds = false then
      { actions := [MineAction.checkpointTx n], result := false, loggedError := true }
    else if dryRun then
      { actions := [MineAction.checkpointTx n], result := true, loggedError := false }
    else if retryDeploySucceeds then
      { actions := [MineAction.checkpointTx n, MineAction.deployTx],
        result := true, loggedError := false }
    else
      { actions := [MineAction.checkpointTx n, MineAction.deployTx],
        result := false, loggedError := true }
  | MineErrorClass.alreadyDeployed =>
    { actions := [], result := false, loggedError := false }
  | MineErrorClass.other =>
    { actions := [], result := false, loggedError := true }

/-- **C6, counterexample.** An "already deployed" error is *not*
treated as success-no-op: the function returns `false` — the same
round-skipped result as any other failure — while a successful
deployment returns `true`.  (It is benign: nothing is submitted and no
error is logged.) -/
theorem already_deployed_not_success :
    classifyMineError "Error: already deployed for this round"
      = MineErrorClass.alreadyDeployed ∧
    (autoMineCatch false "Error: already deployed for this round" 10 true true).result
      = false := by
  constructor
  · decide
  · decide

/-- **C6, amended.** Deployment errors are classified as the claim
says, except that the benign "already deployed" case is not reported as
success: a checkpoint-required error leads to one checkpoint catch-up
batch followed by exactly one retried deployment (never more than one
deployment submission comes out of the handler); an already-deployed
error produces no submission, no error log, and the round is reported
as not deployed (result `false`, like a skip); any other error is
logged as an error, nothing further is submitted, and only that round's
attempt is abandoned (result `false`). -/
theorem mine_error_classification :
    ∀ (msg : String) (built : ℕ) (cpOk retryOk : Bool),
      ((autoMineCatch false msg built cpOk retryOk).actions.count MineAction.deployTx ≤ 1) ∧
      (classifyMineError msg = MineErrorClass.checkpointRequired → 0 < built → cpOk = true →
        (autoMineCatch false msg built cpOk retryOk).actions
          = [MineAction.checkpointTx (min built 10), MineAction.deployTx]) ∧
      (classifyMineError msg = MineErrorClass.alreadyDeployed →
        autoMineCatch false msg built cpOk retryOk
          = { actions := [], result := false, loggedError := false }) ∧
      (classifyMineError msg = MineErrorClass.other →
        autoMineCatch false msg built cpOk retryOk
          = { actions := [], result := false, loggedError := true }) := by
  intro msg built cpOk retryOk
  unfold autoMineCatch
  cases hclass : classifyMineError msg with
  | checkpointRequired =>
    refine ⟨?_, ?_, by simp [hclass], by simp [hclass]⟩
    · cases cpOk <;> cases retryOk <;> by_cases hn : min built 10 = 0 <;>
        simp [hn, List.count_cons]
    · intro _ hbuilt hcp
      subst hcp
      have hn : ¬ min built 10 = 0 := by omega
      simp [hn]
      cases retryOk <;> simp
  | alreadyDeployed =>
    exact ⟨by simp, by simp [hclass], by simp, by simp [hclass]⟩
  | other =>
    exact ⟨by simp, by simp [hclass], by simp [hclass], by simp⟩

/-- Witness for `mine_error_classification`: a concrete
checkpoint-required error with 7 buildable checkpoints leads to a
7-checkpoint batch followed by a single retried deployment. -/
theorem mine_error_classification_witness :
    (autoMineCatch false "miner not checkpointed" 7 true true).actions
      = [MineAction.checkpointTx (min 7 10), MineAction.deployTx] :=
  (mine_error_classification "miner not checkpointed" 7 true true).2.1
    (by decide) (by decide) rfl

/-- Binary population count, fuel-driven (`n` halves each step, so `n`
itself is enough fuel). -/
def popCountAux : ℕ → ℕ → ℕ
  | 0, _ => 0
  | _ + 1, 0 => 0
  | fuel + 1, n + 1 => (n + 1) % 2 + popCountAux fuel ((n + 1) / 2)

/-- Number of set bits of `n`. -/
def popcount (n : ℕ) : ℕ :=
  popCountAux n n

/-- The escrow snapshot decoded by `getAutomationInfo`
(`smartBot.ts` lines 271-292). -/
structure AutomationInfo where
  amountPerSquare : ℕ
  balance : ℕ
  mask : ℕ
  costPerRound : ℕ
  deriving Repr, DecidableEq

/-- `getAutomationInfo` (lines 280-291) after the raw little-endian
reads: the fields are taken verbatim from the account data and
`costPerRound = amountPerSquare * mask` — the raw `mask` field value,
not a popcount. -/
def mkAutomationInfo (amountPerSquare balance mask : ℕ) : AutomationInfo :=
  { amountPerSquare := amountPerSquare
    balance := balance
    mask := mask
    costPerRound := amountPerSquare * mask }

/-- `getSquareMask('all')` from `src/utils/program.ts`: all 25 bits
set. -/
def getSquareMaskAll : ℕ := 0x1FFFFFF

/-- **C7, counterexample.** `costPerRound` is `amountPerUnit` times the
raw `unitMask` value, not times its population count: for the mask the
bot itself writes at setup (`squareMask = 25n`), a snapshot with
`amountPerSquare = 1` gets `costPerRound = 25`, whereas
`popcount 25 = 3`. -/
theorem costPerRound_not_popcount :
    (mkAutomationInfo 1 1000000000 25).costPerRound = 25 ∧
    popcount 25 = 3 ∧
    (mkAutomationInfo 1 1000000000 25).costPerRound ≠ 1 * popcount 25 := by
  refine ⟨rfl, by decide, by decide⟩

/-- **C7, amended.** Every escrow snapshot satisfies
`costPerRound = amountPerUnit × unitMask` (the raw mask field); this
agrees with `amountPerUnit × popcount(unitMask)` only in the degenerate
masks `0` and `1`.  (A true all-squares bitmask, `getSquareMask('all')`,
has popcount 25 — but the bot stores the literal `25` in the mask
field, so its own escrows get `costPerRound = 25 × amountPerUnit`.) -/
theorem costPerRound_raw_mask :
    ∀ (amountPerSquare balance mask : ℕ),
      (mkAutomationInfo amountPerSquare balance mask).costPerRound
        = amountPerSquare * mask ∧
      (mask ≤ 1 →
        (mkAutomationInfo amountPerSquare balance mask).costPerRound
          = amountPerSquare * popcount mask) ∧
      popcount getSquareMaskAll = 25 := by
  intro amountPerSquare balance mask
  refine ⟨rfl, ?_, by decide⟩
  intro hmask
  interval_cases mask <;> rfl

/-- Witness for `costPerRound_raw_mask`: at `mask = 1` the raw-mask and
popcount formulas agree. -/
theorem costPerRound_raw_mask_witness :
    (mkAutomationInfo 7 0 1).costPerRound = 7 * popcount 1 :=
  (costPerRound_raw_mask 7 0 1).2.1 (by decide)

end OrbMiner
